import Mathlib

/-!
Shallow embedding of the resilient request layer of the `be-strong-new`
repository, together with proofs about its retry, classification and
cleanup behaviour.

Embedded source functions:
  * `categorizeError` and `safeSupabaseQuery`   (src/src/lib/supabase.ts)
  * `SupabaseHealthMonitor.notifyListeners`     (src/src/lib/supabase.ts)
  * `fetchRoutes` pre-flight connectivity check (RoutesPage component)
  * `diagnoseSupabaseConnectivity`              (src/src/utils/supabaseDiagnostics.ts)
  * `signOut`                                   (src/src/hooks/useAuth.tsx)

JavaScript strings are modelled by `String`; `undefined`/`null` fields by
`Option`; a raw error value (anything thrown or carried in a `{ data, error }`
result) by `RawError`, keeping exactly the fields the code inspects
(`message`, `name`, `code`).  Substring tests (`String.prototype.includes`)
and prefix tests (`String.prototype.startsWith`) are implemented on the
character lists so that they evaluate by kernel reduction.
-/

/-- Predicate for list prefixes, mirroring `String.prototype.startsWith`. -/
def isPrefixList : List Char → List Char → Bool
  | [], _ => true
  | _ :: _, [] => false
  | a :: as, b :: bs => a == b && isPrefixList as bs

/-- Substring occurrence on character lists, mirroring
`String.prototype.includes`. -/
def hasSubList (pat : List Char) : List Char → Bool
  | [] => isPrefixList pat []
  | b :: bs => isPrefixList pat (b :: bs) || hasSubList pat bs

/-- The JS expression `m?.includes(pat)` used in guard position: an absent
string is falsy, a present string is searched for `pat`. -/
def jsIncludes (m : Option String) (pat : String) : Bool :=
  match m with
  | some s => hasSubList pat.data s.data
  | none => false

/-- The JS expression `c?.startsWith(pat)` used in guard position. -/
def jsStartsWith (c : Option String) (pat : String) : Bool :=
  match c with
  | some s => isPrefixList pat.data s.data
  | none => false

/-- The JS expression `v || d` for strings: an absent or empty string is
falsy and is replaced by the default `d`. -/
def jsOrStr (v : Option String) (d : String) : String :=
  match v with
  | some s => if s = "" then d else s
  | none => d

/-- Raw failure value as inspected by `categorizeError`: the code only ever
reads `error.message`, `error.name` and `error.code`, each of which may be
absent. -/
structure RawError where
  message : Option String
  name : Option String
  code : Option String
deriving DecidableEq, Repr

/-- Shapes of the `details` payload passed to the `SupabaseError`
constructor at the various call sites (`{ context }`,
`{ originalError: error.message, context }`,
`{ originalError: error, context }`, `{ networkStatus }`). -/
inductive ErrDetails where
  | ctxOnly (context : String)
  | msgCtx (originalError : Option String) (context : String)
  | errCtx (originalError : Option RawError) (context : String)
  | netStatus (networkStatus : String)
deriving DecidableEq, Repr

/-- The `SupabaseError` class of src/src/lib/supabase.ts: message, machine
code, details payload and retryability flag (its `name` field is the
constant string "SupabaseError" and is left implicit). -/
structure SupabaseError where
  message : String
  code : String
  details : ErrDetails
  isRetryable : Bool
deriving DecidableEq, Repr

/-- The `categorizeError` cascade of src/src/lib/supabase.ts, clause for
clause: a falsy error, then network, authentication, permission, duplicate
key, foreign key and server-error guards, and finally the default clause
that keeps the raw error's own message and code (with `||` fallbacks) and
marks it non-retryable. -/
def categorizeError (error : Option RawError) (context : String) : SupabaseError :=
  match error with
  | none =>
    ⟨"Unknown error occurred", "UNKNOWN_ERROR", .ctxOnly context, false⟩
  | some e =>
    if jsIncludes e.message "Failed to fetch" ||
       jsIncludes e.message "ERR_NAME_NOT_RESOLVED" ||
       jsIncludes e.message "Network Error" ||
       e.name == some "TypeError" then
      ⟨"Network connectivity issue. Please check your internet connection and Supabase project status.",
       "NETWORK_ERROR", .msgCtx e.message context, true⟩
    else if jsIncludes e.message "JWT" ||
            jsIncludes e.message "invalid_grant" ||
            e.code == some "invalid_credentials" then
      ⟨"Authentication failed. Please log in again.",
       "AUTH_ERROR", .msgCtx e.message context, false⟩
    else if e.code == some "42501" || jsIncludes e.message "permission denied" then
      ⟨"Permission denied. You may not have access to this resource.",
       "PERMISSION_ERROR", .msgCtx e.message context, false⟩
    else if e.code == some "23505" then
      ⟨"Data already exists. Please check for duplicates.",
       "DUPLICATE_ERROR", .msgCtx e.message context, false⟩
    else if e.code == some "23503" then
      ⟨"Related data not found. Please check your data relationships.",
       "FOREIGN_KEY_ERROR", .msgCtx e.message context, false⟩
    else if jsStartsWith e.code "5" || jsIncludes e.message "500" then
      ⟨"Server error occurred. Please try again.",
       "SERVER_ERROR", .msgCtx e.message context, true⟩
    else
      ⟨jsOrStr e.message "An unexpected error occurred",
       jsOrStr e.code "UNKNOWN_ERROR", .errCtx (some e) context, false⟩

/-- Disjunction of all the guard conditions of `categorizeError` that
precede its default clause: a raw error matching none of these falls into
the default clause. -/
def matchesKnownCategory (e : RawError) : Bool :=
  (jsIncludes e.message "Failed to fetch" ||
   jsIncludes e.message "ERR_NAME_NOT_RESOLVED" ||
   jsIncludes e.message "Network Error" ||
   e.name == some "TypeError") ||
  (jsIncludes e.message "JWT" ||
   jsIncludes e.message "invalid_grant" ||
   e.code == some "invalid_credentials") ||
  (e.code == some "42501" || jsIncludes e.message "permission denied") ||
  e.code == some "23505" ||
  e.code == some "23503" ||
  (jsStartsWith e.code "5" || jsIncludes e.message "500")

/-- One invocation of the wrapped `queryFn`: it either returns a
`{ data, error }` pair (with `error = none` for a falsy error field) or
throws a value (`thrown none` models throwing a falsy value). -/
inductive Outcome (T : Type) where
  | returned (data : Option T) (error : Option RawError)
  | thrown (e : Option RawError)

/-- Raw cause carried by an attempt outcome: the returned error field, or
the thrown value. -/
def Outcome.cause {T : Type} : Outcome T → Option RawError
  | .returned _ e => e
  | .thrown e => e

/-- Result shape of `safeSupabaseQuery`: a `{ data, error }` pair with the
error side already classified. -/
structure QueryResult (T : Type) where
  data : Option T
  error : Option SupabaseError

/-- Instrumented run of `safeSupabaseQuery`: the returned pair plus the
number of invocations of `queryFn` and the list of backoff delays (in
milliseconds, in chronological order) awaited between attempts. -/
structure ExecTrace (T : Type) where
  result : QueryResult T
  invocations : Nat
  delays : List Nat

/-- The backoff delay awaited after a failed attempt, from the source's
`Math.pow(2, attempt) * 1000`. -/
def backoffDelay (attempt : Nat) : Nat := 2 ^ attempt * 1000

/-- Default of the `maxRetries` parameter of `safeSupabaseQuery`. -/
def defaultMaxRetries : Nat := 3

/-- Loop body of `safeSupabaseQuery`, structurally recursive on the fuel
`maxRetries - attempt + 1`.  The source threads a `lastError` variable
through the loop; from the top-level entry that variable is only ever read
when the loop body never ran (`maxRetries = 0`, where it is still
`undefined`, hence `categorizeError none`) or immediately after the `break`
of the throw branch at the final attempt (where it equals the value just
thrown); both reads are inlined here.  Attempts are 1-indexed. -/
def runAux {T : Type} (op : Nat → Outcome T) (ctx : String) (maxRetries : Nat) :
    Nat → Nat → Nat → List Nat → ExecTrace T
  | _, 0, invs, delays =>
    ⟨⟨none, some (categorizeError none ctx)⟩, invs, delays.reverse⟩
  | attempt, fuel + 1, invs, delays =>
    match op attempt with
    | .returned d none => ⟨⟨d, none⟩, invs + 1, delays.reverse⟩
    | .returned _ (some e) =>
      let se := categorizeError (some e) ctx
      if se.isRetryable = false ∨ attempt = maxRetries then
        ⟨⟨none, some se⟩, invs + 1, delays.reverse⟩
      else
        runAux op ctx maxRetries (attempt + 1) fuel (invs + 1) (backoffDelay attempt :: delays)
    | .thrown e =>
      if attempt = maxRetries then
        ⟨⟨none, some (categorizeError e ctx)⟩, invs + 1, delays.reverse⟩
      else
        runAux op ctx maxRetries (attempt + 1) fuel (invs + 1) (backoffDelay attempt :: delays)

/-- Instrumented `safeSupabaseQuery` of src/src/lib/supabase.ts: runs the
attempt loop from attempt 1 with fuel `maxRetries`. -/
def safeSupabaseQueryTraced {T : Type} (op : Nat → Outcome T) (ctx : String)
    (maxRetries : Nat) : ExecTrace T :=
  runAux op ctx maxRetries 1 maxRetries 0 []

/-- The `{ data, error }` pair returned by `safeSupabaseQuery`. -/
def safeSupabaseQuery {T : Type} (op : Nat → Outcome T) (ctx : String)
    (maxRetries : Nat) : QueryResult T :=
  (safeSupabaseQueryTraced op ctx maxRetries).result

/-- Condition under which attempt `n` makes the loop continue to attempt
`n + 1` (when attempts remain): a returned error classified retryable, or
any thrown value (the catch branch of the source retries unconditionally
until the final attempt). -/
def continuesAt {T : Type} (op : Nat → Outcome T) (ctx : String) (n : Nat) : Prop :=
  (∃ d e, op n = .returned d (some e) ∧ (categorizeError (some e) ctx).isRetryable = true) ∨
  (∃ e, op n = .thrown e)

/-- Attempt `n` fails and its cause classifies as retryable — whether the
failure is a returned error value or a thrown one. -/
def retryableFailureAt {T : Type} (op : Nat → Outcome T) (ctx : String) (n : Nat) : Prop :=
  (∃ d e, op n = .returned d (some e) ∧ (categorizeError (some e) ctx).isRetryable = true) ∨
  (∃ e, op n = .thrown e ∧ (categorizeError e ctx).isRetryable = true)

theorem retryableFailureAt_continuesAt {T : Type} {op : Nat → Outcome T} {ctx : String}
    {n : Nat} (h : retryableFailureAt op ctx n) : continuesAt op ctx n := by
  rcases h with ⟨d, e, he, hr⟩ | ⟨e, he, _⟩
  · exact Or.inl ⟨d, e, he, hr⟩
  · exact Or.inr ⟨e, he⟩

/-- Attempt behaviour in a divergence-aware model: `none` means the promise
returned by `queryFn` on that attempt never settles (the `await` never
resumes). -/
def OutcomeHA (T : Type) := Nat → Option (Outcome T)

/-- Loop body of `safeSupabaseQuery` in the divergence-aware model.  The
source contains no timer and no race: the only awaited values in the loop
are `queryFn()` and the backoff `setTimeout` promise, so if the attempt's
promise never settles the whole call never settles, which `none`
propagates. -/
def runAuxHA {T : Type} (op : OutcomeHA T) (ctx : String) (maxRetries : Nat) :
    Nat → Nat → Nat → List Nat → Option (ExecTrace T)
  | _, 0, invs, delays =>
    some ⟨⟨none, some (categorizeError none ctx)⟩, invs, delays.reverse⟩
  | attempt, fuel + 1, invs, delays =>
    match op attempt with
    | none => none
    | some (.returned d none) => some ⟨⟨d, none⟩, invs + 1, delays.reverse⟩
    | some (.returned _ (some e)) =>
      let se := categorizeError (some e) ctx
      if se.isRetryable = false ∨ attempt = maxRetries then
        some ⟨⟨none, some se⟩, invs + 1, delays.reverse⟩
      else
        runAuxHA op ctx maxRetries (attempt + 1) fuel (invs + 1) (backoffDelay attempt :: delays)
    | some (.thrown e) =>
      if attempt = maxRetries then
        some ⟨⟨none, some (categorizeError e ctx)⟩, invs + 1, delays.reverse⟩
      else
        runAuxHA op ctx maxRetries (attempt + 1) fuel (invs + 1) (backoffDelay attempt :: delays)

/-- Divergence-aware `safeSupabaseQuery`: `none` when the call never
settles. -/
def safeSupabaseQueryHA {T : Type} (op : OutcomeHA T) (ctx : String)
    (maxRetries : Nat) : Option (ExecTrace T) :=
  runAuxHA op ctx maxRetries 1 maxRetries 0 []

/-- The divergence-aware model agrees with the total one on operations all
of whose attempts settle. -/
theorem runAuxHA_agrees {T : Type} (op : Nat → Outcome T) (ctx : String)
    (maxRetries : Nat) : ∀ fuel attempt invs delays,
    runAuxHA (fun n => some (op n)) ctx maxRetries attempt fuel invs delays =
      some (runAux op ctx maxRetries attempt fuel invs delays) := by
  intro fuel
  induction fuel with
  | zero => intro attempt invs delays; rfl
  | succ f ih =>
    intro attempt invs delays
    show runAuxHA _ _ _ _ (f + 1) _ _ = _
    rw [runAuxHA, runAux]
    cases h : op attempt with
    | returned d e =>
      cases e with
      | none => rfl
      | some err =>
        by_cases hc : (categorizeError (some err) ctx).isRetryable = false ∨ attempt = maxRetries
        · simp only [hc, if_pos]
        · simp only [hc, if_neg, not_false_eq_true, ih]
    | thrown e =>
      by_cases hc : attempt = maxRetries
      · simp only [hc, if_pos]
      · simp only [hc, if_neg, not_false_eq_true, ih]

/-- Stepping lemma: if attempt `attempt` continues (returned retryable
error, or thrown) and it is not the final attempt, the loop awaits
`backoffDelay attempt` and moves on to attempt `attempt + 1`. -/
theorem runAux_continue_step {T : Type} (op : Nat → Outcome T) (ctx : String)
    (maxRetries : Nat) {attempt : Nat} (hc : continuesAt op ctx attempt)
    (hne : attempt ≠ maxRetries) (fuel invs : Nat) (delays : List Nat) :
    runAux op ctx maxRetries attempt (fuel + 1) invs delays =
      runAux op ctx maxRetries (attempt + 1) fuel (invs + 1)
        (backoffDelay attempt :: delays) := by
  rcases hc with ⟨d, e, he, hr⟩ | ⟨e, he⟩
  · rw [runAux, he]
    have hcond : ¬((categorizeError (some e) ctx).isRetryable = false ∨ attempt = maxRetries) := by
      simp [hr, hne]
    simp only [hcond, if_neg, not_false_eq_true]
  · rw [runAux, he]
    simp only [hne, if_neg, not_false_eq_true]

/-- Skipping lemma: a block of attempts `attempt, …, k - 1` that all
continue advances the loop to attempt `k`, consuming one invocation and
recording one backoff delay per skipped attempt. -/
theorem runAux_skip {T : Type} (op : Nat → Outcome T) (ctx : String) (m k : Nat)
    (hk : k ≤ m) : ∀ fuel attempt invs delays, attempt + fuel = m + 1 → attempt ≤ k →
    (∀ j, attempt ≤ j → j < k → continuesAt op ctx j) →
    runAux op ctx m attempt fuel invs delays =
      runAux op ctx m k (m + 1 - k) (invs + (k - attempt))
        (((List.range' attempt (k - attempt)).map backoffDelay).reverse ++ delays) := by
  intro fuel
  induction fuel with
  | zero =>
    intro attempt invs delays hsum hak _
    omega
  | succ f ih =>
    intro attempt invs delays hsum hak hcont
    rcases Nat.eq_or_lt_of_le hak with heq | hlt
    · subst heq
      have h0 : attempt - attempt = 0 := by omega
      have hf : m + 1 - attempt = f + 1 := by omega
      rw [h0, hf]
      simp
    · have hcA : continuesAt op ctx attempt := hcont attempt le_rfl hlt
      have hne : attempt ≠ m := by omega
      rw [runAux_continue_step op ctx m hcA hne f invs delays]
      rw [ih (attempt + 1) (invs + 1) (backoffDelay attempt :: delays) (by omega) (by omega)
          (fun j hj1 hj2 => hcont j (by omega) hj2)]
      have hinv : invs + 1 + (k - (attempt + 1)) = invs + (k - attempt) := by omega
      have hsucc : k - attempt = (k - (attempt + 1)) + 1 := by omega
      have hlist :
          ((List.range' (attempt + 1) (k - (attempt + 1))).map backoffDelay).reverse ++
              (backoffDelay attempt :: delays) =
            ((List.range' attempt (k - attempt)).map backoffDelay).reverse ++ delays := by
        rw [hsucc, List.range'_succ, List.map_cons, List.reverse_cons, List.append_assoc,
          List.singleton_append]
      rw [hinv, hlist]

/-- Full-run characterization when every attempt `1, …, m` fails with a
retryable cause: the loop performs exactly `m` invocations, records the
backoff delays of attempts `1, …, m - 1`, and the returned pair carries the
classification of attempt `m`'s cause — the classification of the returned
error at the final attempt, or the categorization of the value thrown
there. -/
theorem allRetryableFail_trace {T : Type} (op : Nat → Outcome T) (ctx : String)
    (m : Nat) (hm : 1 ≤ m)
    (hfail : ∀ k, 1 ≤ k → k ≤ m → retryableFailureAt op ctx k) :
    (safeSupabaseQueryTraced op ctx m).result.data = none ∧
    (safeSupabaseQueryTraced op ctx m).result.error =
      some (categorizeError (op m).cause ctx) ∧
    (safeSupabaseQueryTraced op ctx m).invocations = m ∧
    (safeSupabaseQueryTraced op ctx m).delays =
      (List.range' 1 (m - 1)).map backoffDelay := by
  unfold safeSupabaseQueryTraced
  rw [runAux_skip op ctx m m le_rfl m 1 0 [] (by omega) hm
      (fun j hj1 hj2 => retryableFailureAt_continuesAt (hfail j hj1 (by omega)))]
  have hf : m + 1 - m = 1 := by omega
  rw [hf]
  rcases hfail m hm le_rfl with ⟨d, e, he, _⟩ | ⟨e, he, _⟩
  · rw [runAux, he]
    simp only [eq_self_iff_true, or_true, if_true]
    refine ⟨trivial, rfl, ?_, ?_⟩
    · show 0 + (m - 1) + 1 = m
      omega
    · show ((List.map backoffDelay (List.range' 1 (m - 1))).reverse ++ []).reverse =
        List.map backoffDelay (List.range' 1 (m - 1))
      simp
  · rw [runAux, he]
    simp only [eq_self_iff_true, if_true]
    refine ⟨trivial, rfl, ?_, ?_⟩
    · show 0 + (m - 1) + 1 = m
      omega
    · show ((List.map backoffDelay (List.range' 1 (m - 1))).reverse ++ []).reverse =
        List.map backoffDelay (List.range' 1 (m - 1))
      simp

/-- Full-run characterization when attempts `1, …, k - 1` continue and
attempt `k` succeeds (returns a pair with a falsy error field): the success
is returned as-is after exactly `k` invocations, with only the `k - 1`
backoff delays of the earlier failed attempts — none after the success. -/
theorem succeedsAt_trace {T : Type} (op : Nat → Outcome T) (ctx : String)
    (m k : Nat) (d : Option T) (hk1 : 1 ≤ k) (hkm : k ≤ m)
    (hcont : ∀ j, 1 ≤ j → j < k → continuesAt op ctx j)
    (he : op k = .returned d none) :
    (safeSupabaseQueryTraced op ctx m).result.data = d ∧
    (safeSupabaseQueryTraced op ctx m).result.error = none ∧
    (safeSupabaseQueryTraced op ctx m).invocations = k ∧
    (safeSupabaseQueryTraced op ctx m).delays =
      (List.range' 1 (k - 1)).map backoffDelay := by
  unfold safeSupabaseQueryTraced
  rw [runAux_skip op ctx m k hkm m 1 0 [] (by omega) hk1
      (fun j hj1 hj2 => hcont j hj1 hj2)]
  have hf : m + 1 - k = (m - k) + 1 := by omega
  rw [hf, runAux, he]
  refine ⟨rfl, rfl, ?_, ?_⟩
  · show 0 + (k - 1) + 1 = k
    omega
  · show ((List.map backoffDelay (List.range' 1 (k - 1))).reverse ++ []).reverse =
      List.map backoffDelay (List.range' 1 (k - 1))
    simp

/-- Full-run characterization when attempts `1, …, k - 1` continue and
attempt `k` returns an error classified non-retryable: the loop stops at
attempt `k` — exactly `k` invocations, no delay after attempt `k` — and
surfaces that classification. -/
theorem nonRetryableReturned_trace {T : Type} (op : Nat → Outcome T) (ctx : String)
    (m k : Nat) (d : Option T) (e : RawError) (hk1 : 1 ≤ k) (hkm : k ≤ m)
    (hcont : ∀ j, 1 ≤ j → j < k → continuesAt op ctx j)
    (he : op k = .returned d (some e))
    (hnr : (categorizeError (some e) ctx).isRetryable = false) :
    (safeSupabaseQueryTraced op ctx m).result.data = none ∧
    (safeSupabaseQueryTraced op ctx m).result.error =
      some (categorizeError (some e) ctx) ∧
    (safeSupabaseQueryTraced op ctx m).invocations = k ∧
    (safeSupabaseQueryTraced op ctx m).delays =
      (List.range' 1 (k - 1)).map backoffDelay := by
  unfold safeSupabaseQueryTraced
  rw [runAux_skip op ctx m k hkm m 1 0 [] (by omega) hk1
      (fun j hj1 hj2 => hcont j hj1 hj2)]
  have hf : m + 1 - k = (m - k) + 1 := by omega
  rw [hf, runAux, he]
  simp only [if_pos (Or.inl hnr : (categorizeError (some e) ctx).isRetryable = false ∨ k = m)]
  refine ⟨trivial, trivial, ?_, ?_⟩
  · show 0 + (k - 1) + 1 = k
    omega
  · show ((List.map backoffDelay (List.range' 1 (k - 1))).reverse ++ []).reverse =
      List.map backoffDelay (List.range' 1 (k - 1))
    simp

/-- Invariant of every exit of the attempt loop: the returned pair never
carries both a data value and an error, and any error it carries is the
`categorizeError` classification of some raw cause. -/
theorem runAux_invariant {T : Type} (op : Nat → Outcome T) (ctx : String)
    (m : Nat) : ∀ fuel attempt invs delays,
    ((runAux op ctx m attempt fuel invs delays).result.data = none ∨
      (runAux op ctx m attempt fuel invs delays).result.error = none) ∧
    (∀ se, (runAux op ctx m attempt fuel invs delays).result.error = some se →
      ∃ cause, se = categorizeError cause ctx) := by
  intro fuel
  induction fuel with
  | zero =>
    intro attempt invs delays
    exact ⟨Or.inl rfl, fun se hse => ⟨none, by injection hse with h; exact h.symm⟩⟩
  | succ f ih =>
    intro attempt invs delays
    rw [runAux]
    cases h : op attempt with
    | returned d e =>
      cases e with
      | none => exact ⟨Or.inr rfl, fun se hse => by simp at hse⟩
      | some err =>
        by_cases hc : (categorizeError (some err) ctx).isRetryable = false ∨ attempt = m
        · simp only [if_pos hc]
          exact ⟨Or.inl trivial, fun se hse => ⟨some err, by injection hse with h; exact h.symm⟩⟩
        · simp only [if_neg hc]
          exact ih (attempt + 1) (invs + 1) (backoffDelay attempt :: delays)
    | thrown e =>
      by_cases hc : attempt = m
      · simp only [if_pos hc]
        exact ⟨Or.inl trivial, fun se hse => ⟨e, by injection hse with h; exact h.symm⟩⟩
      · simp only [if_neg hc]
        exact ih (attempt + 1) (invs + 1) (backoffDelay attempt :: delays)

/-- The pre-flight error thrown by `fetchRoutes` of the RoutesPage
component when the network status is offline:
`new SupabaseError('No internet connection detected', 'OFFLINE_ERROR', { networkStatus }, true)`. -/
def offlinePreflightError (networkStatus : String) : SupabaseError :=
  ⟨"No internet connection detected", "OFFLINE_ERROR", .netStatus networkStatus, true⟩

/-- The user-facing message computed in the catch clause of `fetchRoutes`
for a caught `SupabaseError`, switching on its code. -/
def fetchRoutesErrorMessage (e : SupabaseError) : String :=
  if e.code = "NETWORK_ERROR" then
    "Network connection failed. Please check your internet connection."
  else if e.code = "OFFLINE_ERROR" then
    "You appear to be offline. Please check your connection."
  else if e.code = "PERMISSION_ERROR" then
    "Access denied. Please check your account permissions."
  else e.message

/-- Observable effects of one call of `fetchRoutes`: how many times the
wrapped database operation (`database.getFitnessRoutes`, itself a
`safeSupabaseQuery` call) was invoked, the `SupabaseError` reaching the
catch clause if any, and the component state set in the catch/success and
finally blocks. -/
structure FetchRoutesTrace (T : Type) where
  dbInvocations : Nat
  caughtError : Option SupabaseError
  fetchError : Option String
  routes : Option (List T)
  loading : Bool
  retrying : Bool

/-- The `fetchRoutes` function of the RoutesPage component, restricted to
its data path: pre-flight connectivity check (throwing
`offlinePreflightError` without calling the database when
`networkStatus === 'offline'`), one call of `database.getFitnessRoutes`
otherwise, re-throwing its error field if truthy, and the catch/finally
handling.  `dbCall` is the `{ data, error }` pair the database call would
return. -/
def fetchRoutes {T : Type} (networkStatus : String) (dbCall : QueryResult (List T)) :
    FetchRoutesTrace T :=
  if networkStatus = "offline" then
    let err := offlinePreflightError networkStatus
    ⟨0, some err, some (fetchRoutesErrorMessage err), none, false, false⟩
  else
    match dbCall.error with
    | some e => ⟨1, some e, some (fetchRoutesErrorMessage e), none, false, false⟩
    | none => ⟨1, none, none, some (dbCall.data.getD []), false, false⟩

/-- Environment facts `diagnoseSupabaseConnectivity` inspects before its
network probe. -/
structure DiagnoseEnv where
  hasUrl : Bool
  hasKey : Bool
  urlParses : Bool
  hostIncludesSupabaseCo : Bool
  navigatorOnLine : Bool

/-- Behaviour of the HEAD probe fetch of `diagnoseSupabaseConnectivity`:
it resolves, is aborted by the 10-second timer, or rejects with an error
message. -/
inductive FetchProbe where
  | resolves (status : Nat)
  | aborts
  | fails (message : String)

/-- Status/message pair returned by `diagnoseSupabaseConnectivity` (its
details payload is omitted). -/
structure DiagnoseReport where
  status : String
  message : String

/-- The `diagnoseSupabaseConnectivity` function of
src/src/utils/supabaseDiagnostics.ts: configuration checks, URL format
checks, the `navigator.onLine` check, then the DNS/connectivity probe with
its error triage.  Returns the report together with the number of fetch
invocations performed. -/
def diagnoseSupabaseConnectivity (env : DiagnoseEnv) (probe : FetchProbe) :
    DiagnoseReport × Nat :=
  if ¬(env.hasUrl = true ∧ env.hasKey = true) then
    (⟨"config_error", "Missing Supabase environment variables"⟩, 0)
  else if env.urlParses = false then
    (⟨"config_error", "Malformed Supabase URL"⟩, 0)
  else if env.hostIncludesSupabaseCo = false then
    (⟨"config_error", "Invalid Supabase URL format"⟩, 0)
  else if env.navigatorOnLine = false then
    (⟨"network_error", "No internet connection"⟩, 0)
  else
    match probe with
    | .resolves _ => (⟨"success", "Supabase connectivity confirmed"⟩, 1)
    | .aborts => (⟨"network_error", "Connection timeout"⟩, 1)
    | .fails m =>
      if hasSubList "ERR_NAME_NOT_RESOLVED".data m.data then
        (⟨"dns_error", "DNS resolution failed - cannot find Supabase server"⟩, 1)
      else if hasSubList "Failed to fetch".data m.data then
        (⟨"network_error", "Network request failed"⟩, 1)
      else
        (⟨"network_error", "Unknown connectivity error"⟩, 1)

/-- Behaviour of one health-listener callback when invoked: it returns
normally or throws a value. -/
inductive ListenerBehaviour where
  | ok
  | throws (e : String)

/-- Observable effects of `SupabaseHealthMonitor.notifyListeners`: how many
listener callbacks were invoked and the errors logged by the per-listener
catch clause, in order. -/
structure NotifyTrace where
  invoked : Nat
  logged : List String

/-- Body of the `forEach` of `notifyListeners`: invoke the callback in a
try/catch; on a throw, log the error (`'Error in health listener:'`) and
proceed. -/
def notifyStep (status : String) (acc : NotifyTrace) (cb : String → ListenerBehaviour) :
    NotifyTrace :=
  match cb status with
  | .ok => ⟨acc.invoked + 1, acc.logged⟩
  | .throws e => ⟨acc.invoked + 1, acc.logged ++ [e]⟩

/-- The log entry a callback contributes: `none` when it returns normally,
its thrown error when it throws. -/
def listenerLog (status : String) (cb : String → ListenerBehaviour) : Option String :=
  match cb status with
  | .ok => none
  | .throws e => some e

/-- The `notifyListeners` method of `SupabaseHealthMonitor`
(src/src/lib/supabase.ts): iterates over the listeners, invoking each
inside its own try/catch; a throwing callback is logged and iteration
proceeds.  Each listener is a function of the status string whose
behaviour we observe. -/
def notifyListeners (listeners : List (String → ListenerBehaviour)) (status : String) :
    NotifyTrace :=
  listeners.foldl (notifyStep status) ⟨0, []⟩

/-- Behaviour of the remote `supabase.auth.signOut()` call raced against
the 10-second timer in `signOut` of src/src/hooks/useAuth.tsx: the API
resolves with a falsy error field, resolves with an error, rejects, or the
timer wins the race (a rejection with message `'Sign-out timeout'`). -/
inductive SignOutApiOutcome where
  | resolvedOk
  | resolvedError (e : String)
  | rejected (message : String)
  | timedOut

/-- The `lastSignOutAttempt` record written by `signOut`. -/
structure SignOutRecord where
  success : Bool
  stage : String
  error : Option String
deriving DecidableEq, Repr

/-- The slice of the auth context state read and written by `signOut`. -/
structure AuthState where
  user : Option String
  session : Option String
  profile : Option String
  connectionError : Option String
  signOutLoading : Bool
  lastSignOutAttempt : Option SignOutRecord
deriving DecidableEq, Repr

/-- The value `signOut` resolves with. -/
structure SignOutReturn where
  success : Bool
  error : Option String
  stage : Option String
deriving DecidableEq, Repr

/-- Timeout, in milliseconds, of the timer raced against
`supabase.auth.signOut()` in `signOut`. -/
def signOutTimeoutMs : Nat := 10000

/-- The message of the rejection produced when the sign-out timer fires
first. -/
def signOutTimeoutMessage : String := "Sign-out timeout"

/-- The `connectionError` message set when the sign-out API race is lost to
the timer. -/
def signOutTimedOutMsg : String := "Sign-out request timed out, but local session cleared"

/-- The `connectionError` value after the inner try/catch around the
remote sign-out race: untouched (still cleared) when the API resolves,
the timed-out message when the caught rejection's message contains
"timeout" (as the timer's `'Sign-out timeout'` does), a failure message
otherwise. -/
def signOutApiConnectionError (api : SignOutApiOutcome) : Option String :=
  match api with
  | .resolvedOk => none
  | .resolvedError _ => none
  | .rejected m =>
    if hasSubList "timeout".data m.data then some signOutTimedOutMsg
    else some ("Sign-out failed: " ++ m)
  | .timedOut => some signOutTimedOutMsg

/-- The `signOut` function of src/src/hooks/useAuth.tsx.  Inputs beyond
the current state: the outcome of the storage cleanup (`some m` when it
throws, which the inner catch only warns about), the outcome of the
remote sign-out race, and an optional fault (`outerThrow`) standing for
any exception escaping the body and reaching the outer catch, which then
performs the emergency cleanup and still resolves with `success: true`.
Returns the final state and the resolved value. -/
def signOut (st : AuthState) (storageThrow : Option String)
    (api : SignOutApiOutcome) (outerThrow : Option String) :
    AuthState × SignOutReturn :=
  let st1 : AuthState :=
    { st with signOutLoading := true, connectionError := none,
              user := none, session := none, profile := none }
  let _ := storageThrow
  let st2 : AuthState := { st1 with connectionError := signOutApiConnectionError api }
  match outerThrow with
  | none =>
    let st3 := { st2 with lastSignOutAttempt := some ⟨true, "completed", none⟩ }
    ({ st3 with signOutLoading := false },
     ⟨true, none, some "completed"⟩)
  | some m =>
    let st3 : AuthState :=
      { st2 with user := none, session := none, profile := none,
                 lastSignOutAttempt := some ⟨false, "error_recovery", some m⟩ }
    ({ st3 with signOutLoading := false },
     ⟨true, some ("Error occurred but session was cleared: " ++ m),
      some "error_recovery"⟩)

/-- Raw error whose message matches the network guard of
`categorizeError` (classified `NETWORK_ERROR`, retryable). -/
def errNetRaw : RawError := ⟨some "Failed to fetch", none, none⟩

/-- Raw error whose message matches the authentication guard of
`categorizeError` (classified `AUTH_ERROR`, not retryable). -/
def errJWTRaw : RawError := ⟨some "JWT expired", none, none⟩

/-- Raw error matching none of the known classification guards, but
carrying its own truthy code. -/
def errOtherRaw : RawError := ⟨some "strange failure", none, some "22P02"⟩

/-- Operation returning a retryable network error on every attempt. -/
def opAlwaysNetErr : Nat → Outcome Unit := fun _ => .returned none (some errNetRaw)

/-- Operation throwing a non-retryable authentication-shaped error on
every attempt. -/
def opAlwaysThrowJWT : Nat → Outcome Unit := fun _ => .thrown (some errJWTRaw)

/-- Operation returning a non-retryable authentication error on every
attempt. -/
def opReturnsAuthErr : Nat → Outcome Unit := fun _ => .returned none (some errJWTRaw)

/-- Operation failing retryably on attempt 1 and succeeding on attempt 2. -/
def opFailThenOk : Nat → Outcome Unit := fun n =>
  if n = 1 then .returned none (some errNetRaw) else .returned (some ()) none

/-- Operation whose promise never settles on any attempt. -/
def opNeverSettles : OutcomeHA Unit := fun _ => none

/-- C1, counterexample: an operation failing on every attempt with a
retryable network error is invoked exactly 3 times, but the final result's
code is `NETWORK_ERROR` with `retryable: true` — not
`MAX_RETRIES_EXCEEDED` with `retryable: false` as the claim states:
`categorizeError` has no `MAX_RETRIES_EXCEEDED` clause. -/
theorem C1_counterexample :
    (safeSupabaseQueryTraced opAlwaysNetErr "load" 3).invocations = 3 ∧
    (safeSupabaseQueryTraced opAlwaysNetErr "load" 3).result.error.map SupabaseError.code =
      some "NETWORK_ERROR" ∧
    (safeSupabaseQueryTraced opAlwaysNetErr "load" 3).result.error.map SupabaseError.isRetryable =
      some true ∧
    ¬((safeSupabaseQueryTraced opAlwaysNetErr "load" 3).result.error.map SupabaseError.code =
        some "MAX_RETRIES_EXCEEDED") := by decide

/-- C1, amended: for an operation that fails with a retryable cause on
every one of the `maxRetries` attempts, `safeSupabaseQuery` invokes the
operation exactly `maxRetries` times and the final result is
`{ data: null, error }` where `error` is the `categorizeError`
classification of the last observed cause (not a `MAX_RETRIES_EXCEEDED`
error — no such code exists in the implementation). -/
theorem C1_retry_exhaustion {T : Type} (op : Nat → Outcome T) (ctx : String) (m : Nat)
    (hm : 1 ≤ m) (hfail : ∀ k, 1 ≤ k → k ≤ m → retryableFailureAt op ctx k) :
    (safeSupabaseQueryTraced op ctx m).invocations = m ∧
    (safeSupabaseQueryTraced op ctx m).result.data = none ∧
    (safeSupabaseQueryTraced op ctx m).result.error =
      some (categorizeError (op m).cause ctx) := by
  obtain ⟨h1, h2, h3, _⟩ := allRetryableFail_trace op ctx m hm hfail
  exact ⟨h3, h1, h2⟩

/-- Witness for C1's amended theorem at a concrete always-failing
operation. -/
theorem C1_retry_exhaustion_witness :
    (safeSupabaseQueryTraced opAlwaysNetErr "w" 3).invocations = 3 ∧
    (safeSupabaseQueryTraced opAlwaysNetErr "w" 3).result.data = none ∧
    (safeSupabaseQueryTraced opAlwaysNetErr "w" 3).result.error =
      some (categorizeError (opAlwaysNetErr 3).cause "w") :=
  C1_retry_exhaustion opAlwaysNetErr "w" 3 (by decide)
    (fun _ _ _ => Or.inl ⟨none, errNetRaw, rfl, by decide⟩)

/-- C2, counterexample: an operation that THROWS an error classified
non-retryable (`AUTH_ERROR`) on attempt 1 of 3 is nonetheless invoked all
3 times — the catch branch of `safeSupabaseQuery` retries every thrown
failure until the final attempt without classifying it, so the claim's
"regardless of whether the operation reports the failure as a returned
error value or by throwing" is false. -/
theorem C2_counterexample :
    (categorizeError (some errJWTRaw) "load").isRetryable = false ∧
    (safeSupabaseQueryTraced opAlwaysThrowJWT "load" 3).invocations = 3 ∧
    (safeSupabaseQueryTraced opAlwaysThrowJWT "load" 3).invocations ≠ 1 := by decide

/-- C2, amended: when the failure on attempt `k ≤ maxRetries` is a
RETURNED error value classified non-retryable (earlier attempts having
continued), `safeSupabaseQuery` stops at attempt `k` — exactly `k`
invocations — and surfaces that classified error; thrown failures, by
contrast, are retried regardless of classification. -/
theorem C2_nonretryable_returned_stops {T : Type} (op : Nat → Outcome T) (ctx : String)
    (m k : Nat) (d : Option T) (e : RawError) (hk1 : 1 ≤ k) (hkm : k ≤ m)
    (hcont : ∀ j, 1 ≤ j → j < k → continuesAt op ctx j)
    (he : op k = .returned d (some e))
    (hnr : (categorizeError (some e) ctx).isRetryable = false) :
    (safeSupabaseQueryTraced op ctx m).invocations = k ∧
    (safeSupabaseQueryTraced op ctx m).result.data = none ∧
    (safeSupabaseQueryTraced op ctx m).result.error =
      some (categorizeError (some e) ctx) := by
  obtain ⟨h1, h2, h3, _⟩ := nonRetryableReturned_trace op ctx m k d e hk1 hkm hcont he hnr
  exact ⟨h3, h1, h2⟩

/-- Witness for C2's amended theorem: a returned `AUTH_ERROR` at attempt 1
of 3 stops the loop after exactly one invocation. -/
theorem C2_nonretryable_returned_stops_witness :
    (safeSupabaseQueryTraced opReturnsAuthErr "w" 3).invocations = 1 ∧
    (safeSupabaseQueryTraced opReturnsAuthErr "w" 3).result.data = none ∧
    (safeSupabaseQueryTraced opReturnsAuthErr "w" 3).result.error =
      some (categorizeError (some errJWTRaw) "w") :=
  C2_nonretryable_returned_stops opReturnsAuthErr "w" 3 1 none errJWTRaw
    (by decide) (by decide) (fun j hj1 hj2 => absurd (Nat.lt_of_le_of_lt hj1 hj2) (by omega))
    rfl (by decide)

/-- C3: `safeSupabaseQuery` never lets a raw failure escape: it is a total
function returning a `{ data, error }` pair (every failure path of the
loop is absorbed by the branch logic and the catch clause), the pair never
carries both a data value and an error, and any error it carries is the
`categorizeError` reclassification of some raw cause. -/
theorem C3_no_raw_failure_escapes {T : Type} (op : Nat → Outcome T) (ctx : String)
    (m : Nat) :
    ((safeSupabaseQuery op ctx m).data = none ∨ (safeSupabaseQuery op ctx m).error = none) ∧
    (∀ se, (safeSupabaseQuery op ctx m).error = some se →
      ∃ cause, se = categorizeError cause ctx) :=
  runAux_invariant op ctx m m 1 0 []

/-- Witness for C3 at a concrete failing operation: the surfaced error is
a classification produced by `categorizeError`. -/
theorem C3_no_raw_failure_escapes_witness :
    ∃ cause, categorizeError (some errNetRaw) "c" = categorizeError cause "c" :=
  (C3_no_raw_failure_escapes opAlwaysNetErr "c" 1).2
    (categorizeError (some errNetRaw) "c") (by decide)

/-- C4: if attempts `1, …, k - 1` continue (fail retryably or throw) and
attempt `k ≤ maxRetries` returns a pair with no error, `safeSupabaseQuery`
returns that success immediately: the operation is invoked exactly `k`
times and the recorded backoff delays are exactly those of the `k - 1`
earlier attempts — none after the successful attempt. -/
theorem C4_success_short_circuits {T : Type} (op : Nat → Outcome T) (ctx : String)
    (m k : Nat) (d : Option T) (hk1 : 1 ≤ k) (hkm : k ≤ m)
    (hcont : ∀ j, 1 ≤ j → j < k → continuesAt op ctx j)
    (he : op k = .returned d none) :
    (safeSupabaseQueryTraced op ctx m).result.data = d ∧
    (safeSupabaseQueryTraced op ctx m).result.error = none ∧
    (safeSupabaseQueryTraced op ctx m).invocations = k ∧
    (safeSupabaseQueryTraced op ctx m).delays =
      (List.range' 1 (k - 1)).map backoffDelay :=
  succeedsAt_trace op ctx m k d hk1 hkm hcont he

/-- Witness for C4: failure on attempt 1, success on attempt 2 of 3 —
two invocations, one delay, the success returned. -/
theorem C4_success_short_circuits_witness :
    (safeSupabaseQueryTraced opFailThenOk "w" 3).result.data = some () ∧
    (safeSupabaseQueryTraced opFailThenOk "w" 3).result.error = none ∧
    (safeSupabaseQueryTraced opFailThenOk "w" 3).invocations = 2 ∧
    (safeSupabaseQueryTraced opFailThenOk "w" 3).delays =
      (List.range' 1 (2 - 1)).map backoffDelay :=
  C4_success_short_circuits opFailThenOk "w" 3 2 (some ()) (by decide) (by decide)
    (fun j hj1 hj2 => by
      have hj : j = 1 := by omega
      subst hj
      exact Or.inl ⟨none, errNetRaw, rfl, by decide⟩)
    rfl

/-- C5: under the all-attempts-fail-retryably scenario the recorded delay
after attempt `n` is `backoffDelay n` for `n = 1, …, maxRetries - 1`,
where `backoffDelay n = 1000 · 2^n` (the source's
`Math.pow(2, attempt) * 1000` with base delay 1000 ms), and these delays
strictly increase with the attempt number. -/
theorem C5_exponential_backoff {T : Type} (op : Nat → Outcome T) (ctx : String)
    (m : Nat) (hm : 1 ≤ m)
    (hfail : ∀ k, 1 ≤ k → k ≤ m → retryableFailureAt op ctx k) :
    (safeSupabaseQueryTraced op ctx m).delays =
      (List.range' 1 (m - 1)).map backoffDelay ∧
    (∀ n, backoffDelay n = 1000 * 2 ^ n) ∧
    StrictMono backoffDelay := by
  refine ⟨(allRetryableFail_trace op ctx m hm hfail).2.2.2, ?_, ?_⟩
  · intro n
    show 2 ^ n * 1000 = 1000 * 2 ^ n
    exact Nat.mul_comm _ _
  · intro a b h
    exact (Nat.mul_lt_mul_right (by norm_num)).mpr (Nat.pow_lt_pow_right (by norm_num) h)

/-- Witness for C5 at a concrete always-failing operation with three
attempts: delays 2000 ms and 4000 ms. -/
theorem C5_exponential_backoff_witness :
    (safeSupabaseQueryTraced opAlwaysNetErr "b" 3).delays =
      (List.range' 1 (3 - 1)).map backoffDelay ∧
    (∀ n, backoffDelay n = 1000 * 2 ^ n) ∧
    StrictMono backoffDelay :=
  C5_exponential_backoff opAlwaysNetErr "b" 3 (by decide)
    (fun _ _ _ => Or.inl ⟨none, errNetRaw, rfl, by decide⟩)

/-- C6, counterexample: with the connectivity signal offline, the
`fetchRoutes` pre-flight check does make zero database invocations, but
the classified error it fails with has code `OFFLINE_ERROR` — not
`OFFLINE` — and its retryable flag is `true`, not `false` (the source
passes `true` as the fourth `SupabaseError` constructor argument). -/
theorem C6_counterexample :
    (fetchRoutes "offline" (⟨none, none⟩ : QueryResult (List Unit))).dbInvocations = 0 ∧
    (fetchRoutes "offline" (⟨none, none⟩ : QueryResult (List Unit))).caughtError =
      some (offlinePreflightError "offline") ∧
    (offlinePreflightError "offline").code = "OFFLINE_ERROR" ∧
    (offlinePreflightError "offline").isRetryable = true ∧
    ¬((offlinePreflightError "offline").code = "OFFLINE" ∧
      (offlinePreflightError "offline").isRetryable = false) := by decide

/-- C6, amended: when connectivity reports offline before a request
starts, `fetchRoutes` makes zero invocations of the wrapped database
operation and fails immediately with a classified `SupabaseError` of code
`OFFLINE_ERROR` and `isRetryable: true`; likewise
`diagnoseSupabaseConnectivity`, its configuration checks passing, performs
zero fetches and reports `network_error` / "No internet connection". -/
theorem C6_offline_preflight {T : Type} (dbCall : QueryResult (List T))
    (env : DiagnoseEnv) (probe : FetchProbe)
    (henv : env.hasUrl = true ∧ env.hasKey = true ∧ env.urlParses = true ∧
      env.hostIncludesSupabaseCo = true)
    (hoff : env.navigatorOnLine = false) :
    (fetchRoutes "offline" dbCall).dbInvocations = 0 ∧
    (fetchRoutes "offline" dbCall).caughtError = some (offlinePreflightError "offline") ∧
    (offlinePreflightError "offline").code = "OFFLINE_ERROR" ∧
    (offlinePreflightError "offline").isRetryable = true ∧
    (diagnoseSupabaseConnectivity env probe).2 = 0 ∧
    (diagnoseSupabaseConnectivity env probe).1.status = "network_error" ∧
    (diagnoseSupabaseConnectivity env probe).1.message = "No internet connection" := by
  obtain ⟨h1, h2, h3, h4⟩ := henv
  refine ⟨rfl, rfl, rfl, rfl, ?_, ?_, ?_⟩ <;>
    simp [diagnoseSupabaseConnectivity, h1, h2, h3, h4, hoff]

/-- Witness for C6's amended theorem at a concrete offline environment. -/
theorem C6_offline_preflight_witness :
    (fetchRoutes "offline" (⟨none, none⟩ : QueryResult (List Unit))).dbInvocations = 0 ∧
    (fetchRoutes "offline" (⟨none, none⟩ : QueryResult (List Unit))).caughtError =
      some (offlinePreflightError "offline") ∧
    (offlinePreflightError "offline").code = "OFFLINE_ERROR" ∧
    (offlinePreflightError "offline").isRetryable = true ∧
    (diagnoseSupabaseConnectivity ⟨true, true, true, true, false⟩ .aborts).2 = 0 ∧
    (diagnoseSupabaseConnectivity ⟨true, true, true, true, false⟩ .aborts).1.status =
      "network_error" ∧
    (diagnoseSupabaseConnectivity ⟨true, true, true, true, false⟩ .aborts).1.message =
      "No internet connection" :=
  C6_offline_preflight (⟨none, none⟩ : QueryResult (List Unit))
    ⟨true, true, true, true, false⟩ .aborts ⟨rfl, rfl, rfl, rfl⟩ rfl

/-- C7, counterexample: `safeSupabaseQuery` contains no per-attempt timer
and no race: with an operation whose promise never settles, the call
itself never settles — it produces no outcome at all, in particular no
`{code: TIMEOUT, retryable: true}` outcome as the claim states. -/
theorem C7_counterexample :
    safeSupabaseQueryHA opNeverSettles "load" 3 = none ∧
    ¬∃ t : ExecTrace Unit, safeSupabaseQueryHA opNeverSettles "load" 3 = some t := by
  refine ⟨rfl, ?_⟩
  rintro ⟨t, ht⟩
  have hn : safeSupabaseQueryHA opNeverSettles "load" 3 = none := rfl
  rw [hn] at ht
  exact Option.noConfusion ht

/-- C7, amended: `safeSupabaseQuery` does not race attempts against any
timer — an operation that never resolves on its first attempt makes the
whole call hang (no outcome, rather than a TIMEOUT-classified one).  A
10-second race exists only around the remote call in `signOut`, where a
lost race is caught and recorded as a `connectionError` message. -/
theorem C7_no_timeout_executor_hangs {T : Type} (op : OutcomeHA T) (ctx : String)
    (m : Nat) (hm : 1 ≤ m) (h1 : op 1 = none) :
    safeSupabaseQueryHA op ctx m = none := by
  unfold safeSupabaseQueryHA
  obtain ⟨f, hf⟩ : ∃ f, m = f + 1 := ⟨m - 1, by omega⟩
  rw [hf, runAuxHA, h1]

/-- Witness for C7's amended theorem at a concrete never-settling
operation. -/
theorem C7_no_timeout_executor_hangs_witness :
    safeSupabaseQueryHA opNeverSettles "w" 3 = none :=
  C7_no_timeout_executor_hangs opNeverSettles "w" 3 (by decide) rfl

/-- C8, counterexample: a raw error matching no known category but
carrying its own truthy code (`22P02`) is classified non-retryable, as the
claim says, but its code passes through unchanged — the default clause of
`categorizeError` uses `error.code || 'UNKNOWN_ERROR'`, so the classified
code is `22P02`, not an UNKNOWN-style code. -/
theorem C8_counterexample :
    matchesKnownCategory errOtherRaw = false ∧
    (categorizeError (some errOtherRaw) "load").isRetryable = false ∧
    (categorizeError (some errOtherRaw) "load").code = "22P02" ∧
    (categorizeError (some errOtherRaw) "load").code ≠ "UNKNOWN_ERROR" := by decide

/-- C8, amended: every raw error matching none of the known guards of
`categorizeError` (network, authentication, permission, duplicate key,
foreign key, server error) is classified with `retryable: false` — so
unexpected failure shapes are never retried — and with code equal to the
raw error's own code when that is truthy, `UNKNOWN_ERROR` only otherwise. -/
theorem C8_default_clause (e : RawError) (ctx : String)
    (h : matchesKnownCategory e = false) :
    (categorizeError (some e) ctx).isRetryable = false ∧
    (categorizeError (some e) ctx).code = jsOrStr e.code "UNKNOWN_ERROR" := by
  unfold matchesKnownCategory at h
  simp only [Bool.or_eq_false_iff] at h
  unfold categorizeError
  simp_all

/-- Witness for C8's amended theorem at a concrete unclassified error. -/
theorem C8_default_clause_witness :
    (categorizeError (some errOtherRaw) "w").isRetryable = false ∧
    (categorizeError (some errOtherRaw) "w").code = jsOrStr errOtherRaw.code "UNKNOWN_ERROR" :=
  C8_default_clause errOtherRaw "w" (by decide)

/-- Accumulator-generalized run of the `forEach` of `notifyListeners`:
every listener is invoked and throws are appended to the log. -/
theorem notifyStep_foldl (status : String) :
    ∀ (ls : List (String → ListenerBehaviour)) (acc : NotifyTrace),
    ls.foldl (notifyStep status) acc =
      ⟨acc.invoked + ls.length, acc.logged ++ ls.filterMap (listenerLog status)⟩ := by
  intro ls
  induction ls with
  | nil => intro acc; simp [List.filterMap]
  | cons cb ls ih =>
    intro acc
    rw [List.foldl_cons, List.filterMap_cons]
    cases hcb : cb status with
    | ok =>
      have hstep : notifyStep status acc cb = ⟨acc.invoked + 1, acc.logged⟩ := by
        unfold notifyStep; rw [hcb]
      have hlog : listenerLog status cb = none := by
        unfold listenerLog; rw [hcb]
      rw [hstep, ih, hlog]
      simp only [List.length_cons]
      refine congrArg₂ NotifyTrace.mk ?_ rfl
      omega
    | throws e =>
      have hstep : notifyStep status acc cb = ⟨acc.invoked + 1, acc.logged ++ [e]⟩ := by
        unfold notifyStep; rw [hcb]
      have hlog : listenerLog status cb = some e := by
        unfold listenerLog; rw [hcb]
      rw [hstep, ih, hlog]
      simp only [List.length_cons]
      refine congrArg₂ NotifyTrace.mk ?_ ?_
      · omega
      · rw [List.append_assoc, List.singleton_append]

/-- C9: `notifyListeners` is a total function (a throwing listener never
propagates to the emitter — `notifyListeners` and hence `checkHealth`
return normally), every registered listener is invoked exactly once even
when earlier listeners throw, and each thrown error is caught and logged
in order. -/
theorem C9_listener_exceptions_contained (listeners : List (String → ListenerBehaviour))
    (status : String) :
    (notifyListeners listeners status).invoked = listeners.length ∧
    (notifyListeners listeners status).logged =
      listeners.filterMap (listenerLog status) := by
  unfold notifyListeners
  rw [notifyStep_foldl status listeners ⟨0, []⟩]
  exact ⟨Nat.zero_add _, List.nil_append _⟩

/-- C10: on every execution path — remote sign-out succeeding, returning
an error, rejecting, losing the 10-second race (`signOutTimeoutMs`),
storage cleanup throwing, or an exception reaching the outer catch —
`signOut` resolves with `success: true`, and in the state it leaves behind
the local auth state (`user`, `session`, `profile`) is cleared and
`signOutLoading` is reset; being total, it never rejects, and no path
returns `success: false`. -/
theorem C10_signout_always_succeeds (st : AuthState) (storageThrow : Option String)
    (api : SignOutApiOutcome) (outerThrow : Option String) :
    (signOut st storageThrow api outerThrow).2.success = true ∧
    (signOut st storageThrow api outerThrow).1.user = none ∧
    (signOut st storageThrow api outerThrow).1.session = none ∧
    (signOut st storageThrow api outerThrow).1.profile = none ∧
    (signOut st storageThrow api outerThrow).1.signOutLoading = false := by
  unfold signOut
  cases outerThrow <;> exact ⟨rfl, rfl, rfl, rfl, rfl⟩
